import Mathlib

/-!
# Verification of the movie-ratings aggregation transforms

A shallow embedding of the four aggregation functions of
`src/movieAnalysis.py` (`plot_genre_counts`, `plot_5star_treemap`,
`plot_mean_rating_by_year`, `top_movies_table`).  Only the data
transformation performed by each function is embedded; the chart objects
built around the transformed frames are presentation and carry no further
data semantics.

Modelling decisions:
* a dataframe row is a record with the four columns used by the
  transforms; `genres` is nullable (pandas `value_counts` drops nulls),
  while `rating` and `year` are taken non-null as the data model assumes;
* `rating` and the derived means are rationals (exact arithmetic in place
  of IEEE-754 doubles);
* pandas `Series.value_counts()` counts distinct values (hash-table
  insertion order, i.e. first occurrence) and sorts by count descending;
* pandas `groupby(k)` with default `sort=True` produces one group per
  distinct key, keys sorted ascending;
* pandas sorts are modelled by the stable `List.insertionSort`.
-/

open List

/-- One row of the loaded table: columns `title`, `genres`, `rating`,
`year`.  `genres` is nullable. -/
structure Row where
  title : String
  genres : Option String
  rating : ℚ
  year : Int
deriving Repr, DecidableEq

abbrev Table := List Row

/-- One row of the frames produced by the two genre transforms:
columns `genres` and `count`. -/
structure GenreCount where
  genres : String
  count : Nat
deriving Repr, DecidableEq

/-- One row of the frame produced by `plot_mean_rating_by_year`:
columns `year` and the mean `rating` (called `mean_rating` in the spec
data model). -/
structure YearlyMeanRating where
  year : Int
  mean_rating : ℚ
deriving Repr, DecidableEq

/-- One row of the frame returned by `top_movies_table`: columns
`title`, `avg_rating`, `rating_count`. -/
structure MovieStat where
  title : String
  avg_rating : ℚ
  rating_count : Nat
deriving Repr, DecidableEq

/-- The distinct elements of a list, in order of first occurrence
(pandas hash-table insertion order). -/
def distinctFirst {α : Type} [DecidableEq α] : List α → List α
  | [] => []
  | x :: xs => x :: distinctFirst (xs.filter (fun y => y ≠ x))
termination_by l => l.length
decreasing_by
  simp only [List.length_cons]
  exact Nat.lt_succ_of_le (List.length_filter_le _ _)

/-- Drop the null entries of a nullable column (pandas `dropna`, as done
inside `value_counts`). -/
def dropna {α : Type} (l : List (Option α)) : List α :=
  l.filterMap (fun x => x)

/-- `s.value_counts().reset_index()` with the columns renamed to
`["genres", "count"]`: one row per distinct value of `s`, its count of
occurrences, sorted by count descending. -/
def value_counts (s : List String) : List GenreCount :=
  List.insertionSort (fun a b => b.count ≤ a.count)
    ((distinctFirst s).map (fun g => { genres := g, count := s.count g }))

/-- The data transform of `plot_genre_counts`:
`df["genres"].value_counts().reset_index()`. -/
def plot_genre_counts (df : Table) : List GenreCount :=
  value_counts (dropna (df.map Row.genres))

/-- The data transform of `plot_5star_treemap`: filter to the rows with
`rating == 5`, then `value_counts` of their `genres` column. -/
def plot_5star_treemap (df : Table) : List GenreCount :=
  let top_ratings := df.filter (fun r => r.rating = 5)
  value_counts (dropna (top_ratings.map Row.genres))

/-- The rows of `df` carrying year `y`, projected to their ratings:
the `rating` column of one `groupby("year")` group. -/
def yearGroup (df : Table) (y : Int) : List ℚ :=
  (df.filter (fun r => r.year = y)).map Row.rating

/-- The data transform of `plot_mean_rating_by_year`:
`df.groupby("year")["rating"].mean().reset_index()`.  One row per
distinct year, keys sorted ascending (pandas groupby default), value the
arithmetic mean of the group. -/
def plot_mean_rating_by_year (df : Table) : List YearlyMeanRating :=
  (List.insertionSort (fun a b => a ≤ b) (distinctFirst (df.map Row.year))).map
    (fun y => { year := y, mean_rating := (yearGroup df y).sum / (yearGroup df y).length })

/-- The rows of `df` carrying title `t`, projected to their ratings:
the `rating` column of one `groupby("title")` group. -/
def titleGroup (df : Table) (t : String) : List ℚ :=
  (df.filter (fun r => r.title = t)).map Row.rating

/-- `top_movies_table df min_ratings top_n`: group by `title` (keys
sorted ascending, pandas groupby default), aggregate mean and count of
`rating`, keep groups with `rating_count >= min_ratings`, sort by
`avg_rating` descending, take the first `top_n` rows. -/
def top_movies_table (df : Table) (min_ratings : Nat) (top_n : Nat) : List MovieStat :=
  let movie_stats :=
    (List.insertionSort (fun a b => a ≤ b) (distinctFirst (df.map Row.title))).map
      (fun t => { title := t, avg_rating := (titleGroup df t).sum / (titleGroup df t).length,
                  rating_count := (titleGroup df t).length })
  let filtered_movies := movie_stats.filter (fun s => min_ratings ≤ s.rating_count)
  (List.insertionSort (fun a b => b.avg_rating ≤ a.avg_rating) filtered_movies).take top_n

/-! Calls with the table state threaded explicitly.  A Python caller
passes the loaded dataframe by reference; a call returns its result
together with the frame that reference designates afterwards.  None of
the pandas operations the four functions use (`value_counts`, boolean
indexing, `groupby`-`agg`-`mean`, `sort_values` without `inplace`,
`head`, `reset_index`) writes to its input frame: each builds a new one,
so the table component of each call is the input table itself. -/

/-- A call to `plot_genre_counts`, with the table state threaded. -/
def plot_genre_counts_call (df : Table) : List GenreCount × Table :=
  (plot_genre_counts df, df)

/-- A call to `plot_5star_treemap`, with the table state threaded. -/
def plot_5star_treemap_call (df : Table) : List GenreCount × Table :=
  (plot_5star_treemap df, df)

/-- A call to `plot_mean_rating_by_year`, with the table state threaded. -/
def plot_mean_rating_by_year_call (df : Table) : List YearlyMeanRating × Table :=
  (plot_mean_rating_by_year df, df)

/-- A call to `top_movies_table`, with the table state threaded. -/
def top_movies_table_call (df : Table) (min_ratings : Nat) (top_n : Nat) :
    List MovieStat × Table :=
  (top_movies_table df min_ratings top_n, df)

/-- The three-row table of the spec's concrete scenario. -/
def scenarioTable : Table :=
  [ { title := "Toy Story", genres := some "Animation", rating := 5, year := 1995 },
    { title := "Toy Story", genres := some "Animation", rating := 4, year := 1995 },
    { title := "Heat", genres := some "Action", rating := 3, year := 1995 } ]

unseal distinctFirst in
/-- Evaluation of `plot_genre_counts` on the scenario table. -/
theorem scenario_genre_counts_eq : plot_genre_counts scenarioTable =
    [⟨"Animation", 2⟩, ⟨"Action", 1⟩] := by decide

unseal distinctFirst in
/-- Evaluation of `plot_5star_treemap` on the scenario table. -/
theorem scenario_5star_eq : plot_5star_treemap scenarioTable = [⟨"Animation", 1⟩] := by
  decide

/-- Evaluation of `plot_mean_rating_by_year` on the scenario table. -/
theorem scenario_yearly_eq : plot_mean_rating_by_year scenarioTable = [⟨1995, 4⟩] := by
  norm_num [plot_mean_rating_by_year, distinctFirst, yearGroup, scenarioTable]

/-- Evaluation of `top_movies_table` on the scenario table. -/
theorem scenario_top_eq : top_movies_table scenarioTable 1 5 =
    [⟨"Toy Story", 9/2, 2⟩, ⟨"Heat", 3, 1⟩] := by
  have h₁ : (decide (("Heat" : String) = "Toy Story")) = false := by decide
  have h₂ : (decide (("Toy Story" : String) = "Heat")) = false := by decide
  norm_num [top_movies_table, distinctFirst, titleGroup, scenarioTable, h₁, h₂]

/-- Membership in `distinctFirst` is membership in the original list. -/
theorem mem_distinctFirst {α : Type} [DecidableEq α] {a : α} {l : List α} :
    a ∈ distinctFirst l ↔ a ∈ l := by
  induction l using distinctFirst.induct with
  | case1 => simp [distinctFirst]
  | case2 x xs ih =>
    rw [distinctFirst]
    simp only [List.mem_cons, ih, List.mem_filter, decide_eq_true_eq]
    constructor
    · rintro (rfl | ⟨h1, _⟩)
      · exact Or.inl rfl
      · exact Or.inr h1
    · rintro (rfl | h1)
      · exact Or.inl rfl
      · by_cases hax : a = x
        · exact Or.inl hax
        · exact Or.inr ⟨h1, hax⟩

/-- `distinctFirst` has no duplicates. -/
theorem nodup_distinctFirst {α : Type} [DecidableEq α] (l : List α) :
    (distinctFirst l).Nodup := by
  induction l using distinctFirst.induct with
  | case1 => simp [distinctFirst]
  | case2 x xs ih =>
    rw [distinctFirst]
    refine List.nodup_cons.2 ⟨?_, ih⟩
    intro hx
    have hmem := mem_distinctFirst.1 hx
    simp [List.mem_filter] at hmem

/-- `distinctFirst` is the deduplication of the list, up to order. -/
theorem distinctFirst_perm_dedup {α : Type} [DecidableEq α] (l : List α) :
    distinctFirst l ~ l.dedup :=
  (List.perm_ext_iff_of_nodup (nodup_distinctFirst l) l.nodup_dedup).2
    (fun a => by rw [mem_distinctFirst, List.mem_dedup])

/-- Summing the multiplicities of the distinct values recovers the list
length. -/
theorem sum_map_count_distinctFirst {α : Type} [DecidableEq α] (l : List α) :
    ((distinctFirst l).map (fun a => l.count a)).sum = l.length := by
  rw [List.Perm.sum_eq ((distinctFirst_perm_dedup l).map (fun a => l.count a))]
  exact List.sum_map_count_dedup_eq_length l

/-- `value_counts` is, up to the final sort, the list of per-distinct-value
counters. -/
theorem value_counts_perm (s : List String) :
    value_counts s ~ (distinctFirst s).map
      (fun g => { genres := g, count := s.count g }) :=
  List.perm_insertionSort _ _

/-- The rows of `value_counts`. -/
theorem mem_value_counts {s : List String} {e : GenreCount} :
    e ∈ value_counts s ↔ ∃ g ∈ distinctFirst s,
      e = { genres := g, count := s.count g } := by
  rw [(value_counts_perm s).mem_iff]
  simp only [List.mem_map]
  constructor
  · rintro ⟨g, hg, rfl⟩
    exact ⟨g, hg, rfl⟩
  · rintro ⟨g, hg, rfl⟩
    exact ⟨g, hg, rfl⟩

/-- The `genres` column of `value_counts` is the distinct values of the
input, up to order. -/
theorem value_counts_genres_perm (s : List String) :
    (value_counts s).map GenreCount.genres ~ distinctFirst s := by
  have h := (value_counts_perm s).map GenreCount.genres
  rw [List.map_map] at h
  have hid : (GenreCount.genres ∘ fun g =>
      ({ genres := g, count := s.count g } : GenreCount)) = id := rfl
  rw [hid, List.map_id] at h
  exact h

/-- The counts of `value_counts` sum to the length of the input column. -/
theorem sum_value_counts (s : List String) :
    ((value_counts s).map GenreCount.count).sum = s.length := by
  rw [List.Perm.sum_eq ((value_counts_perm s).map GenreCount.count)]
  rw [List.map_map]
  exact sum_map_count_distinctFirst s

/-- Membership in a dropped-nulls column. -/
theorem mem_dropna {α : Type} {l : List (Option α)} {a : α} :
    a ∈ dropna l ↔ some a ∈ l := by
  simp [dropna, List.mem_filterMap]

/-- The length of the dropped-nulls `genres` column is the number of rows
with non-null `genres`. -/
theorem length_dropna_genres (df : Table) :
    (dropna (df.map Row.genres)).length
      = (df.filter (fun r => r.genres ≠ none)).length := by
  induction df with
  | nil => rfl
  | cons r rs ih =>
    simp only [dropna, List.map_cons, List.filterMap_cons, List.filter_cons] at *
    cases h : r.genres with
    | none => simpa [h] using ih
    | some g => simpa [h] using ih

/-- Multiplicity of a value in the dropped-nulls `genres` column: the
number of rows carrying that genre. -/
theorem count_dropna_genres (df : Table) (g : String) :
    (dropna (df.map Row.genres)).count g
      = (df.filter (fun r => r.genres = some g)).length := by
  induction df with
  | nil => rfl
  | cons r rs ih =>
    simp only [dropna, List.map_cons, List.filterMap_cons, List.filter_cons] at *
    cases h : r.genres with
    | none => simpa [h] using ih
    | some x =>
      by_cases hg : x = g
      · subst hg
        simpa [h, List.count_cons] using ih
      · simpa [h, List.count_cons, hg, Ne.symm hg] using ih

instance : IsTotal GenreCount (fun a b => b.count ≤ a.count) :=
  ⟨fun a b => Nat.le_total b.count a.count⟩

instance : IsTrans GenreCount (fun a b => b.count ≤ a.count) :=
  ⟨fun _ _ _ h1 h2 => Nat.le_trans h2 h1⟩

instance : IsTotal MovieStat (fun a b => b.avg_rating ≤ a.avg_rating) :=
  ⟨fun a b => le_total b.avg_rating a.avg_rating⟩

instance : IsTrans MovieStat (fun a b => b.avg_rating ≤ a.avg_rating) :=
  ⟨fun _ _ _ h1 h2 => le_trans h2 h1⟩

/-- `value_counts` output is sorted by `count` descending. -/
theorem value_counts_sorted (s : List String) :
    (value_counts s).Pairwise (fun a b => b.count ≤ a.count) :=
  List.sorted_insertionSort _ _

/-- Every `value_counts` row counts a value that does occur, so its count
is at least one. -/
theorem value_counts_count_pos {s : List String} {e : GenreCount}
    (he : e ∈ value_counts s) : 1 ≤ e.count := by
  obtain ⟨g, hg, rfl⟩ := mem_value_counts.1 he
  exact List.count_pos_iff.2 (mem_distinctFirst.1 hg)

/-- C3: the counts of `genre_counts(table)` sum to the number of rows with
non-null `genres`, and every distinct non-null `genres` value of the table
appears exactly once (each appears, and no genre appears twice). -/
theorem genre_counts_complete (df : Table) :
    ((plot_genre_counts df).map GenreCount.count).sum
        = (df.filter (fun r => r.genres ≠ none)).length
    ∧ ((plot_genre_counts df).map GenreCount.genres).Nodup
    ∧ (∀ g : String,
        g ∈ (plot_genre_counts df).map GenreCount.genres
          ↔ some g ∈ df.map Row.genres) := by
  refine ⟨?_, ?_, ?_⟩
  · rw [plot_genre_counts, sum_value_counts, length_dropna_genres]
  · exact ((value_counts_genres_perm (dropna (df.map Row.genres))).nodup_iff).2
      (nodup_distinctFirst _)
  · intro g
    rw [plot_genre_counts, (value_counts_genres_perm _).mem_iff, mem_distinctFirst,
      mem_dropna]

/-- C10: the two genre transforms return counts sorted non-increasing, and
every returned count is at least 1. -/
theorem genre_counts_order_and_counts (df : Table) :
    (plot_genre_counts df).Pairwise (fun a b => b.count ≤ a.count)
    ∧ (∀ e ∈ plot_genre_counts df, 1 ≤ e.count)
    ∧ (plot_5star_treemap df).Pairwise (fun a b => b.count ≤ a.count)
    ∧ (∀ e ∈ plot_5star_treemap df, 1 ≤ e.count) :=
  ⟨value_counts_sorted _, fun _ he => value_counts_count_pos he,
   value_counts_sorted _, fun _ he => value_counts_count_pos he⟩

/-- The five-star `genres` column is a sublist of the full `genres`
column. -/
theorem five_star_column_sublist (df : Table) :
    dropna ((df.filter (fun r => r.rating = 5)).map Row.genres)
      <+ dropna (df.map Row.genres) :=
  List.Sublist.filterMap _ (List.Sublist.map Row.genres (List.filter_sublist df))

/-- C4: every genre of `five_star_genre_counts` also appears in
`genre_counts` with a count at least as large; the five-star counts count
exactly the rows with `rating = 5` and the given genre; and with no
five-star row the output is empty. -/
theorem five_star_subset (df : Table) :
    (∀ e ∈ plot_5star_treemap df, ∃ e2 ∈ plot_genre_counts df,
        e2.genres = e.genres ∧ e.count ≤ e2.count)
    ∧ (∀ e ∈ plot_5star_treemap df,
        e.count = ((df.filter (fun r => r.rating = 5)).filter
          (fun r => r.genres = some e.genres)).length)
    ∧ (df.filter (fun r => r.rating = 5) = [] → plot_5star_treemap df = []) := by
  refine ⟨?_, ?_, ?_⟩
  · intro e he
    obtain ⟨g, hg, rfl⟩ := mem_value_counts.1 he
    have hmem : g ∈ dropna (df.map Row.genres) :=
      (five_star_column_sublist df).subset (mem_distinctFirst.1 hg)
    refine ⟨⟨g, (dropna (df.map Row.genres)).count g⟩, ?_, rfl, ?_⟩
    · exact mem_value_counts.2 ⟨g, mem_distinctFirst.2 hmem, rfl⟩
    · exact (five_star_column_sublist df).count_le g
  · intro e he
    obtain ⟨g, hg, rfl⟩ := mem_value_counts.1 he
    exact count_dropna_genres _ g
  · intro h
    simp [plot_5star_treemap, h, value_counts, dropna, distinctFirst]

/-- C2: `yearly_mean_rating` has one row per distinct year of the table
(each such year appears, and no year twice), each row carries the
arithmetic mean of that year's ratings, and the rows are sorted ascending
by year. -/
theorem yearly_mean_rating_spec (df : Table) :
    ((plot_mean_rating_by_year df).map YearlyMeanRating.year).Nodup
    ∧ (∀ y : Int, y ∈ (plot_mean_rating_by_year df).map YearlyMeanRating.year
        ↔ y ∈ df.map Row.year)
    ∧ (∀ e ∈ plot_mean_rating_by_year df,
        e.mean_rating = (yearGroup df e.year).sum / ((yearGroup df e.year).length : ℚ))
    ∧ (plot_mean_rating_by_year df).Pairwise (fun a b => a.year ≤ b.year) := by
  have hmap : (plot_mean_rating_by_year df).map YearlyMeanRating.year
      = List.insertionSort (fun a b => a ≤ b) (distinctFirst (df.map Row.year)) := by
    rw [plot_mean_rating_by_year, List.map_map]
    exact List.map_id _
  refine ⟨?_, ?_, ?_, ?_⟩
  · rw [hmap]
    exact ((List.perm_insertionSort _ _).nodup_iff).2 (nodup_distinctFirst _)
  · intro y
    rw [hmap, (List.perm_insertionSort _ _).mem_iff, mem_distinctFirst]
  · intro e he
    rw [plot_mean_rating_by_year, List.mem_map] at he
    obtain ⟨y, hy, rfl⟩ := he
    rfl
  · rw [plot_mean_rating_by_year, List.pairwise_map]
    exact (List.sorted_insertionSort (fun a b : Int => a ≤ b) _).imp (fun h => h)

/-- C1: every row of `top_movies(table, m, n)` satisfies the `min_ratings`
threshold and carries the mean and row count of its title group, the
result has at most `n` rows, and it is sorted non-increasing by
`avg_rating`. -/
theorem top_movies_spec (df : Table) (m n : Nat) (hm : 0 < m) (hn : 0 < n) :
    (∀ s ∈ top_movies_table df m n,
        m ≤ s.rating_count
        ∧ s.rating_count = (df.filter (fun r => r.title = s.title)).length
        ∧ s.avg_rating
            = (titleGroup df s.title).sum / ((titleGroup df s.title).length : ℚ))
    ∧ (top_movies_table df m n).length ≤ n
    ∧ (top_movies_table df m n).Pairwise (fun a b => b.avg_rating ≤ a.avg_rating) := by
  refine ⟨?_, ?_, ?_⟩
  · intro s hs
    simp only [top_movies_table] at hs
    have hs1 := List.mem_of_mem_take hs
    rw [(List.perm_insertionSort _ _).mem_iff, List.mem_filter] at hs1
    obtain ⟨hs2, hm'⟩ := hs1
    rw [List.mem_map] at hs2
    obtain ⟨t, ht, rfl⟩ := hs2
    refine ⟨by simpa using hm', ?_, rfl⟩
    simp [titleGroup]
  · simp only [top_movies_table]
    exact List.length_take_le _ _
  · simp only [top_movies_table]
    exact List.Pairwise.sublist (List.take_sublist _ _) (List.sorted_insertionSort _ _)

/-- Witness for C1: the theorem applied to the scenario table with
min_ratings = 1 and top_n = 5. -/
theorem top_movies_spec_witness :
    (∀ s ∈ top_movies_table scenarioTable 1 5,
        1 ≤ s.rating_count
        ∧ s.rating_count = (scenarioTable.filter (fun r => r.title = s.title)).length
        ∧ s.avg_rating = (titleGroup scenarioTable s.title).sum
            / ((titleGroup scenarioTable s.title).length : ℚ))
    ∧ (top_movies_table scenarioTable 1 5).length ≤ 5
    ∧ (top_movies_table scenarioTable 1 5).Pairwise
        (fun a b => b.avg_rating ≤ a.avg_rating) :=
  top_movies_spec scenarioTable 1 5 (by decide) (by decide)

/-- C8: every mean of `yearly_mean_rating` lies between the minimum and
the maximum rating observed for its year. -/
theorem mean_rating_bounded (df : Table) (e : YearlyMeanRating) (mn mx : ℚ)
    (he : e ∈ plot_mean_rating_by_year df)
    (hmn : (yearGroup df e.year).min? = some mn)
    (hmx : (yearGroup df e.year).max? = some mx) :
    mn ≤ e.mean_rating ∧ e.mean_rating ≤ mx := by
  rw [plot_mean_rating_by_year, List.mem_map] at he
  obtain ⟨y, hy, rfl⟩ := he
  have hmem : mn ∈ yearGroup df y := List.min?_mem (fun a b => min_choice a b) hmn
  have hlb : ∀ b ∈ yearGroup df y, mn ≤ b := by
    intro b hb
    exact (List.le_min?_iff (fun a b c => le_min_iff) hmn).1 (le_refl mn) b hb
  have hub : ∀ b ∈ yearGroup df y, b ≤ mx := by
    intro b hb
    exact (List.max?_le_iff (fun a b c => max_le_iff) hmx).1 (le_refl mx) b hb
  have hpos : 0 < ((yearGroup df y).length : ℚ) := by
    exact_mod_cast List.length_pos_of_mem hmem
  constructor
  · show mn ≤ (yearGroup df y).sum / ((yearGroup df y).length : ℚ)
    rw [le_div_iff₀ hpos, mul_comm, ← nsmul_eq_mul]
    exact List.card_nsmul_le_sum _ _ hlb
  · show (yearGroup df y).sum / ((yearGroup df y).length : ℚ) ≤ mx
    rw [div_le_iff₀ hpos, mul_comm, ← nsmul_eq_mul]
    exact List.sum_le_card_nsmul _ _ hub

/-- Witness for C8: on the scenario table, the 1995 mean 4 lies within
[3, 5], the observed rating range of 1995. -/
theorem mean_rating_bounded_witness :
    (3 : ℚ) ≤ (⟨1995, 4⟩ : YearlyMeanRating).mean_rating
    ∧ (⟨1995, 4⟩ : YearlyMeanRating).mean_rating ≤ 5 :=
  mean_rating_bounded scenarioTable ⟨1995, 4⟩ 3 5
    (by rw [scenario_yearly_eq]; exact List.mem_singleton_self _)
    (by norm_num [yearGroup, scenarioTable, List.min?, min_def])
    (by norm_num [yearGroup, scenarioTable, List.max?, max_def])

/-- C5: the concrete scenario.  On the three-row table, `genre_counts`
returns Animation 2 and Action 1 (order-independent), the five-star
transform returns Animation 1, the yearly transform returns 1995 with
mean 4, and `top_movies` with min_ratings 1 and top_n 5 returns Toy Story
(mean 9/2, 2 ratings) then Heat (mean 3, 1 rating). -/
theorem concrete_scenario_spec :
    plot_genre_counts scenarioTable ~ [⟨"Animation", 2⟩, ⟨"Action", 1⟩]
    ∧ plot_5star_treemap scenarioTable = [⟨"Animation", 1⟩]
    ∧ plot_mean_rating_by_year scenarioTable = [⟨1995, 4⟩]
    ∧ top_movies_table scenarioTable 1 5
        = [⟨"Toy Story", 9/2, 2⟩, ⟨"Heat", 3, 1⟩] := by
  refine ⟨?_, scenario_5star_eq, scenario_yearly_eq, scenario_top_eq⟩
  rw [scenario_genre_counts_eq]

/-- C6: on the empty table every transform returns the empty sequence
(and, being total functions, none raises). -/
theorem empty_input_spec :
    plot_genre_counts [] = []
    ∧ plot_5star_treemap [] = []
    ∧ plot_mean_rating_by_year [] = []
    ∧ (∀ m n : Nat, 0 < m → 0 < n → top_movies_table [] m n = []) := by
  refine ⟨?_, ?_, ?_, ?_⟩ <;>
    simp [plot_genre_counts, plot_5star_treemap, plot_mean_rating_by_year,
      top_movies_table, value_counts, dropna, distinctFirst]

/-- C7: each transform is a deterministic function of its arguments:
equal inputs give equal outputs. -/
theorem transforms_deterministic (df df' : Table) (m n : Nat) (h : df = df') :
    plot_genre_counts df = plot_genre_counts df'
    ∧ plot_5star_treemap df = plot_5star_treemap df'
    ∧ plot_mean_rating_by_year df = plot_mean_rating_by_year df'
    ∧ top_movies_table df m n = top_movies_table df' m n := by
  subst h
  exact ⟨rfl, rfl, rfl, rfl⟩

/-- Witness for C7 at the scenario table. -/
theorem transforms_deterministic_witness :
    plot_genre_counts scenarioTable = plot_genre_counts scenarioTable
    ∧ plot_5star_treemap scenarioTable = plot_5star_treemap scenarioTable
    ∧ plot_mean_rating_by_year scenarioTable = plot_mean_rating_by_year scenarioTable
    ∧ top_movies_table scenarioTable 1 5 = top_movies_table scenarioTable 1 5 :=
  transforms_deterministic scenarioTable scenarioTable 1 5 rfl

/-- C9: no transform mutates the shared table: after each call the table
the caller holds equals the table before the call. -/
theorem transforms_no_mutation (df : Table) :
    (plot_genre_counts_call df).2 = df
    ∧ (plot_5star_treemap_call df).2 = df
    ∧ (plot_mean_rating_by_year_call df).2 = df
    ∧ (∀ m n : Nat, (top_movies_table_call df m n).2 = df) :=
  ⟨rfl, rfl, rfl, fun _ _ => rfl⟩
